import Mathlib

/-!
Shallow embedding of the trade-quoting state machine of
`src/hooks/routing/useRouterTrade.ts` (uniswap-widgets).

The hook combines: a visibility/support gate over the debounced amount, a
currency-orientation step driven by the trade type, a supported-chain guard
that throws, a query-argument builder, the RTK-Query fetcher observables
(`isFetching`, `isError`, `data`, `currentData`), a block-validity filter
over the fetched quote, and a pure resolver returning a `TradeState` plus an
optional trade.  External collaborators (`computeRoutes`,
`transformRoutesToTrade`, the block oracle, the stablecoin conversion) are
passed as function parameters; parts of the repository not present under
`src/` (the query-argument builder, the supported-chain list, the fetcher's
idle behaviour under the skip sentinel) are modelled from the spec and
marked as such.
-/

namespace RouterTrade

/-- `TradeState` enum from `state/routing/types`. -/
inductive TradeState where
  | INVALID
  | LOADING
  | NO_ROUTE_FOUND
  | SYNCING
  | VALID
deriving DecidableEq, Repr

/-- `TradeType` enum from `@uniswap/sdk-core`. -/
inductive TradeType where
  | EXACT_INPUT
  | EXACT_OUTPUT
deriving DecidableEq, Repr

/-- A currency identity: its chain id plus a distinguishing tag standing for
the token address/symbol identity. -/
structure Currency where
  chainId : Nat
  tag : String
deriving DecidableEq, Repr

/-- `CurrencyAmount` from `@uniswap/sdk-core`: a raw integer amount tied to a
currency. -/
structure CurrencyAmount where
  currency : Currency
  raw : Nat
deriving DecidableEq, Repr

/-- `CurrencyAmount.fromRawAmount(currency, quote)` as used at
`useRouterTrade.ts:107`. -/
def CurrencyAmount.fromRawAmount (currency : Currency) (raw : Nat) : CurrencyAmount :=
  { currency := currency, raw := raw }

/-- `GetQuoteResult` from `state/routing/types`: the fields the hook reads
(`quote`, `blockNumber`, `gasUseEstimateUSD`), plus a tag so distinct
responses with equal fields can be told apart. -/
structure GetQuoteResult where
  quote : Nat
  blockNumber : Nat
  gasUseEstimateUSD : Nat
  tag : Nat
deriving DecidableEq, Repr

/-- One route description produced by `computeRoutes`; the hook only inspects
presence and length and forwards the list opaquely. -/
structure Route where
  id : Nat
deriving DecidableEq, Repr

/-- `InterfaceTrade` as far as the hook observes it: an input amount, an
output amount and the type; built only by the opaque transform. -/
structure InterfaceTrade where
  inputAmount : CurrencyAmount
  outputAmount : CurrencyAmount
  tradeType : TradeType
deriving DecidableEq, Repr

/-- The canonical request descriptor (`QueryArgs`). -/
structure QueryArgs where
  tokenIn : Currency
  tokenOut : Currency
  amountRaw : Nat
  amountCurrency : Currency
  tradeType : TradeType
  routerUrl : Option String
  providerUrl : String
deriving DecidableEq, Repr

/-- The hook's return value: `{ state, trade }`. -/
structure TradeResult where
  state : TradeState
  trade : Option InterfaceTrade
deriving DecidableEq, Repr

/-- `INVALID_TRADE` constant at `useRouterTrade.ts:20`. -/
def INVALID_TRADE : TradeResult := { state := TradeState.INVALID, trade := none }

/-- The visibility/support gate at `useRouterTrade.ts:45`:
`autoRouterSupported && isWindowVisible ? debouncedAmount : undefined`. -/
def gateAmount (autoRouterSupported isWindowVisible : Bool)
    (debouncedAmount : Option CurrencyAmount) : Option CurrencyAmount :=
  if autoRouterSupported && isWindowVisible then debouncedAmount else none

/-- Currency orientation at `useRouterTrade.ts:47-53`: for `EXACT_INPUT` the
pair is `[amount.currency, otherCurrency]`, for `EXACT_OUTPUT` it is
reversed. -/
def selectCurrencies (tradeType : TradeType)
    (debouncedAmountSpecified : Option CurrencyAmount)
    (debouncedOtherCurrency : Option Currency) :
    Option Currency × Option Currency :=
  match tradeType with
  | TradeType.EXACT_INPUT =>
      (debouncedAmountSpecified.map (·.currency), debouncedOtherCurrency)
  | TradeType.EXACT_OUTPUT =>
      (debouncedOtherCurrency, debouncedAmountSpecified.map (·.currency))

/-- JavaScript truthiness of `currencyIn?.chainId`: truthy iff present and
nonzero (`useRouterTrade.ts:56` tests `chainId && ...`). -/
def chainIdTruthy : Option Nat → Bool
  | none => false
  | some c => c != 0

/-- Modelled from the spec: the fixed allow-list of supported networks
(`AUTO_ROUTER_SUPPORTED_CHAINS` in `hooks/routing/clientSideSmartOrderRouter`,
not under `src/`): a static set of network identities. -/
def AUTO_ROUTER_SUPPORTED_CHAINS : List Nat :=
  [1, 3, 4, 5, 42, 10, 69, 137, 42161, 421611, 80001]

/-- Modelled from the spec: the Query Argument Builder
(`hooks/routing/useRouterArguments`, not under `src/`): returns the canonical
`QueryArgs`, or the "no request" sentinel when `tokenIn`, `tokenOut` or
`amount` is missing, when the two tokens resolve to the same asset, or when
the amount is zero. -/
def useRouterArguments (tokenIn tokenOut : Option Currency)
    (amount : Option CurrencyAmount) (tradeType : TradeType)
    (routerUrl : Option String) (providerUrl : String) : Option QueryArgs :=
  match tokenIn, tokenOut, amount with
  | some tin, some tout, some amt =>
      if tin = tout || amt.raw == 0 then none
      else some { tokenIn := tin, tokenOut := tout, amountRaw := amt.raw,
                  amountCurrency := amt.currency, tradeType := tradeType,
                  routerUrl := routerUrl, providerUrl := providerUrl }
  | _, _, _ => none

/-- The block-validity filter at `useRouterTrade.ts:78`:
`useIsValidBlock(Number(data?.blockNumber) || 0) ? data : undefined`.
The oracle is passed in as a function. -/
def filterQuote (isValidBlock : Nat → Bool) (data : Option GetQuoteResult) :
    Option GetQuoteResult :=
  if isValidBlock ((data.map (·.blockNumber)).getD 0) then data else none

/-- The `otherAmount` computation at `useRouterTrade.ts:105-111`: when a
filtered quote is present, its raw `quote` reinterpreted in `currencyOut`
for `EXACT_INPUT` and in `currencyIn` for `EXACT_OUTPUT`; otherwise absent. -/
def computeOtherAmount (tradeType : TradeType) (currencyIn currencyOut : Currency)
    (quoteResult : Option GetQuoteResult) : Option CurrencyAmount :=
  quoteResult.map fun q =>
    CurrencyAmount.fromRawAmount
      (if tradeType = TradeType.EXACT_INPUT then currencyOut else currencyIn)
      q.quote

/-- Inputs of the pure trade-state resolver (the `useMemo` body at
`useRouterTrade.ts:90-141`), exactly its dependency list. -/
structure ResolverInput where
  currencyIn : Option Currency
  currencyOut : Option Currency
  quoteResult : Option GetQuoteResult
  isFetching : Bool
  tradeType : TradeType
  isError : Bool
  route : Option (List Route)
  queryArgs : Option QueryArgs
  gasUseEstimateUSD : Option CurrencyAmount
  isSyncing : Bool

/-- The trade-state resolver, `useRouterTrade.ts:90-129`.  The opaque,
possibly-failing `transformRoutesToTrade` is a parameter returning `Option`
(`none` models a throw caught at line 127). -/
def resolveTrade
    (transform : List Route → TradeType → Option CurrencyAmount → Option InterfaceTrade)
    (i : ResolverInput) : TradeResult :=
  match i.currencyIn, i.currencyOut with
  | some currencyIn, some currencyOut =>
      if i.isFetching then
        { state := TradeState.LOADING, trade := none }
      else
        let otherAmount := computeOtherAmount i.tradeType currencyIn currencyOut i.quoteResult
        if i.isError || otherAmount.isNone || i.route.isNone
            || (i.route.getD []).isEmpty || i.queryArgs.isNone then
          { state := TradeState.NO_ROUTE_FOUND, trade := none }
        else
          match transform (i.route.getD []) i.tradeType i.gasUseEstimateUSD with
          | some trade =>
              { state := if i.isSyncing then TradeState.SYNCING else TradeState.VALID,
                trade := some trade }
          | none => { state := TradeState.INVALID, trade := none }
  | _, _ => { state := TradeState.INVALID, trade := none }

/-- The fetcher observables the hook destructures from `useGetQuoteQuery` at
`useRouterTrade.ts:73`, together with the hook's direct inputs after
debouncing. -/
structure HookState where
  tradeType : TradeType
  routerUrl : Option String
  providerUrl : String
  debouncedAmount : Option CurrencyAmount
  debouncedOtherCurrency : Option Currency
  autoRouterSupported : Bool
  isWindowVisible : Bool
  isFetching : Bool
  isError : Bool
  data : Option GetQuoteResult
  currentData : Option GetQuoteResult

/-- The whole hook body after debouncing, `useRouterTrade.ts:45-141`.
External collaborators are parameters: the supported-chain list, the block
oracle, `computeRoutes`, `transformRoutesToTrade`, and the fiat→stablecoin
conversion.  The unsupported-chain guard at lines 55-58 throws, modelled as
`Except.error`; every other outcome is `Except.ok` of the resolver result. -/
def useRouterTrade
    (supportedChains : List Nat)
    (isValidBlock : Nat → Bool)
    (computeRoutes : Option Currency → Option Currency → TradeType →
      Option GetQuoteResult → Option (List Route))
    (transform : List Route → TradeType → Option CurrencyAmount → Option InterfaceTrade)
    (stablecoinAmountFromFiatValue : Option Nat → Option CurrencyAmount)
    (s : HookState) : Except String TradeResult :=
  let debouncedAmountSpecified :=
    gateAmount s.autoRouterSupported s.isWindowVisible s.debouncedAmount
  let currencies :=
    selectCurrencies s.tradeType debouncedAmountSpecified s.debouncedOtherCurrency
  let currencyIn := currencies.1
  let currencyOut := currencies.2
  let chainId := currencyIn.map (·.chainId)
  if chainIdTruthy chainId && !(supportedChains.contains (chainId.getD 0)) then
    Except.error "Router does not support this chain"
  else
    let queryArgs := useRouterArguments currencyIn currencyOut
      debouncedAmountSpecified s.tradeType s.routerUrl s.providerUrl
    let quoteResult := filterQuote isValidBlock s.data
    let route := computeRoutes currencyIn currencyOut s.tradeType quoteResult
    let gasUseEstimateUSD :=
      stablecoinAmountFromFiatValue (quoteResult.map (·.gasUseEstimateUSD))
    let isSyncing : Bool := s.currentData != s.data
    Except.ok (resolveTrade transform
      { currencyIn := currencyIn, currencyOut := currencyOut,
        quoteResult := quoteResult, isFetching := s.isFetching,
        tradeType := s.tradeType, isError := s.isError, route := route,
        queryArgs := queryArgs, gasUseEstimateUSD := gasUseEstimateUSD,
        isSyncing := isSyncing })

/-- Modelled from the spec: the Quote Fetcher (`state/routing/slice`, not
under `src/`) short-circuits to an idle/no-op state when handed the
"no request" sentinel (`skipToken`): no fetch in flight, no error, no result
for the current key. -/
def FetcherIdleOnSkip (queryArgs : Option QueryArgs) (isFetching isError : Bool)
    (currentData : Option GetQuoteResult) : Prop :=
  queryArgs = none → isFetching = false ∧ isError = false ∧ currentData = none

/-! Concrete sample values used by the witness and counterexample theorems. -/

/-- A sample token on mainnet (chain 1). -/
def currencyA : Currency := { chainId := 1, tag := "A" }

/-- A second, distinct sample token on mainnet. -/
def currencyB : Currency := { chainId := 1, tag := "B" }

/-- A specified amount of 100 `currencyA`. -/
def amount100A : CurrencyAmount := { currency := currencyA, raw := 100 }

/-- A sample raw quote: 95 units, computed at block 1000. -/
def quote95 : GetQuoteResult := { quote := 95, blockNumber := 1000, gasUseEstimateUSD := 7, tag := 0 }

/-- A sample one-hop route list. -/
def route1 : List Route := [{ id := 0 }]

/-- Sample query args for swapping `currencyA` into `currencyB`. -/
def queryArgsAB : QueryArgs :=
  { tokenIn := currencyA, tokenOut := currencyB, amountRaw := 100,
    amountCurrency := currencyA, tradeType := TradeType.EXACT_INPUT,
    routerUrl := none, providerUrl := "" }

/-- A transform that always succeeds, standing in for a well-behaved
`transformRoutesToTrade`. -/
def transformOk : List Route → TradeType → Option CurrencyAmount → Option InterfaceTrade :=
  fun _ tt _ =>
    some { inputAmount := amount100A,
           outputAmount := { currency := currencyB, raw := 95 },
           tradeType := tt }

/-- A transform that always fails, standing in for a throwing
`transformRoutesToTrade`. -/
def transformFail : List Route → TradeType → Option CurrencyAmount → Option InterfaceTrade :=
  fun _ _ _ => none

/-- A resolver input in the "syncing" scenario of claim C1: both currencies
present, a previous key's successful quote on display (`isSyncing = true`),
and the fetch for the new key still in flight (`isFetching = true`). -/
def syncingScenarioInput : ResolverInput :=
  { currencyIn := some currencyA, currencyOut := some currencyB,
    quoteResult := some quote95, isFetching := true,
    tradeType := TradeType.EXACT_INPUT, isError := false,
    route := some route1, queryArgs := some queryArgsAB,
    gasUseEstimateUSD := none, isSyncing := true }

/-- Claim C2: whenever `currencyIn` or `currencyOut` is absent, the resolver
returns `INVALID` with no trade, regardless of every other signal
(`useRouterTrade.ts:91-96`). -/
theorem resolve_invalid_when_currency_missing
    (transform : List Route → TradeType → Option CurrencyAmount → Option InterfaceTrade)
    (i : ResolverInput) (h : i.currencyIn = none ∨ i.currencyOut = none) :
    resolveTrade transform i = INVALID_TRADE := by
  unfold resolveTrade
  rcases h with h | h <;> rw [h]
  · rfl
  · cases i.currencyIn <;> rfl

/-- Witness for claim C2 at a concrete input. -/
theorem resolve_invalid_when_currency_missing_witness :
    resolveTrade transformOk
      { currencyIn := none, currencyOut := some currencyB,
        quoteResult := some quote95, isFetching := false,
        tradeType := TradeType.EXACT_INPUT, isError := false,
        route := some route1, queryArgs := some queryArgsAB,
        gasUseEstimateUSD := none, isSyncing := false } = INVALID_TRADE :=
  resolve_invalid_when_currency_missing transformOk _ (Or.inl rfl)

/-- Claim C7: the visibility/support gate (`useRouterTrade.ts:45`) passes the
debounced amount through exactly when both the window-visible signal and the
auto-router-supported predicate are true, and yields the absent amount
whenever either is false. -/
theorem gate_passes_iff_supported_and_visible
    (autoRouterSupported isWindowVisible : Bool) (amt : Option CurrencyAmount) :
    (autoRouterSupported = true ∧ isWindowVisible = true →
       gateAmount autoRouterSupported isWindowVisible amt = amt) ∧
    (autoRouterSupported = false ∨ isWindowVisible = false →
       gateAmount autoRouterSupported isWindowVisible amt = none) := by
  cases autoRouterSupported <;> cases isWindowVisible <;>
    simp [gateAmount]

/-- Witness for claim C7 at concrete inputs. -/
theorem gate_passes_iff_supported_and_visible_witness :
    gateAmount true true (some amount100A) = some amount100A ∧
    gateAmount false true (some amount100A) = none :=
  ⟨(gate_passes_iff_supported_and_visible true true (some amount100A)).1 ⟨rfl, rfl⟩,
   (gate_passes_iff_supported_and_visible false true (some amount100A)).2 (Or.inl rfl)⟩

/-- Claim C8: currency orientation follows the trade type
(`useRouterTrade.ts:47-53`): for `EXACT_INPUT` the specified amount's
currency is `currencyIn` and the other currency is `currencyOut`, reversed
for `EXACT_OUTPUT`; and the quoted `otherAmount` (`useRouterTrade.ts:105-111`)
is built from the raw quote in `currencyOut` for `EXACT_INPUT`, in
`currencyIn` for `EXACT_OUTPUT`, and is absent when no filtered quote is
present. -/
theorem currency_orientation_follows_trade_type
    (amt : CurrencyAmount) (oc : Option Currency)
    (cin cout : Currency) (q : GetQuoteResult) (tt : TradeType) :
    selectCurrencies TradeType.EXACT_INPUT (some amt) oc = (some amt.currency, oc) ∧
    selectCurrencies TradeType.EXACT_OUTPUT (some amt) oc = (oc, some amt.currency) ∧
    computeOtherAmount TradeType.EXACT_INPUT cin cout (some q)
      = some (CurrencyAmount.fromRawAmount cout q.quote) ∧
    computeOtherAmount TradeType.EXACT_OUTPUT cin cout (some q)
      = some (CurrencyAmount.fromRawAmount cin q.quote) ∧
    computeOtherAmount tt cin cout none = none :=
  ⟨rfl, rfl, rfl, rfl, rfl⟩

/-- Claim C9: resolution is deterministic and idempotent: value-equal
resolver inputs yield equal `{state, trade}` results (the resolver is a pure
function of its dependency list, `useRouterTrade.ts:90-141`). -/
theorem resolution_deterministic
    (transform : List Route → TradeType → Option CurrencyAmount → Option InterfaceTrade)
    (i j : ResolverInput) (h : i = j) :
    resolveTrade transform i = resolveTrade transform j := by
  rw [h]

/-- Witness for claim C9 at a concrete input. -/
theorem resolution_deterministic_witness :
    resolveTrade transformOk syncingScenarioInput
      = resolveTrade transformOk syncingScenarioInput :=
  resolution_deterministic transformOk syncingScenarioInput syncingScenarioInput rfl

/-- Claim C1 (divergence witness): in the syncing scenario — a previous
key's result on display (`isSyncing = true`) while the new key's fetch is in
flight (`isFetching = true`) — the resolver returns `LOADING`, not `SYNCING`:
the `isFetching` early-return at `useRouterTrade.ts:98-103` precedes the
syncing branch at line 124, contradicting the comment at line 123 ("always
return VALID regardless of isFetching status"). -/
theorem loading_shadows_syncing_while_fetching :
    syncingScenarioInput.isSyncing = true ∧
    syncingScenarioInput.isFetching = true ∧
    (resolveTrade transformOk syncingScenarioInput).state = TradeState.LOADING ∧
    (resolveTrade transformOk syncingScenarioInput).state ≠ TradeState.SYNCING :=
  ⟨rfl, rfl, rfl, by decide⟩

/-- Claim C3: whenever the active `QueryArgs` is the "no request" sentinel —
under which the fetcher is idle (`FetcherIdleOnSkip`, so no fetch is in
flight) — the resolved state is `NO_ROUTE_FOUND` or `INVALID`, never
`LOADING`, `VALID` or `SYNCING` (`useRouterTrade.ts:73-76, 113-118`). -/
theorem no_request_resolves_no_route_or_invalid
    (transform : List Route → TradeType → Option CurrencyAmount → Option InterfaceTrade)
    (i : ResolverInput) (currentData : Option GetQuoteResult)
    (hidle : FetcherIdleOnSkip i.queryArgs i.isFetching i.isError currentData)
    (h : i.queryArgs = none) :
    (resolveTrade transform i).state = TradeState.NO_ROUTE_FOUND ∨
    (resolveTrade transform i).state = TradeState.INVALID := by
  obtain ⟨hf, -, -⟩ := hidle h
  unfold resolveTrade
  cases hin : i.currencyIn with
  | none => right; rfl
  | some cin =>
    cases hout : i.currencyOut with
    | none => right; rfl
    | some cout =>
      left
      simp only [hf, if_false, Bool.false_eq_true]
      rw [h]
      simp

/-- Witness for claim C3 at a concrete input. -/
theorem no_request_resolves_no_route_or_invalid_witness :
    (resolveTrade transformOk
      { currencyIn := some currencyA, currencyOut := some currencyB,
        quoteResult := some quote95, isFetching := false,
        tradeType := TradeType.EXACT_INPUT, isError := false,
        route := some route1, queryArgs := none,
        gasUseEstimateUSD := none, isSyncing := false }).state
        = TradeState.NO_ROUTE_FOUND ∨
    (resolveTrade transformOk
      { currencyIn := some currencyA, currencyOut := some currencyB,
        quoteResult := some quote95, isFetching := false,
        tradeType := TradeType.EXACT_INPUT, isError := false,
        route := some route1, queryArgs := none,
        gasUseEstimateUSD := none, isSyncing := false }).state
        = TradeState.INVALID :=
  no_request_resolves_no_route_or_invalid transformOk _ none
    (fun _ => ⟨rfl, rfl, rfl⟩) rfl

/-- Claim C4: when control reaches the trade-construction step (currencies
present, no fetch in flight, no fetch error, a filtered quote and a nonempty
route and query args all present) and `transformRoutesToTrade` fails, the
resolver returns `INVALID` with no trade rather than propagating the failure
(`useRouterTrade.ts:120-129`); `resolveTrade` is a total function, so no
exception escapes by construction. -/
theorem construction_failure_swallowed_as_invalid
    (transform : List Route → TradeType → Option CurrencyAmount → Option InterfaceTrade)
    (i : ResolverInput) (cin cout : Currency) (q : GetQuoteResult)
    (r : List Route) (qa : QueryArgs)
    (hin : i.currencyIn = some cin) (hout : i.currencyOut = some cout)
    (hf : i.isFetching = false) (he : i.isError = false)
    (hq : i.quoteResult = some q) (hr : i.route = some r) (hne : r ≠ [])
    (hqa : i.queryArgs = some qa)
    (hfail : transform r i.tradeType i.gasUseEstimateUSD = none) :
    resolveTrade transform i = INVALID_TRADE := by
  unfold resolveTrade
  rw [hin, hout]
  simp only [hf, if_false, Bool.false_eq_true]
  rw [he, hq, hr, hqa]
  simp [computeOtherAmount, hne, hfail, INVALID_TRADE]

/-- Witness for claim C4 at a concrete input with a failing transform. -/
theorem construction_failure_swallowed_as_invalid_witness :
    resolveTrade transformFail
      { currencyIn := some currencyA, currencyOut := some currencyB,
        quoteResult := some quote95, isFetching := false,
        tradeType := TradeType.EXACT_INPUT, isError := false,
        route := some route1, queryArgs := some queryArgsAB,
        gasUseEstimateUSD := none, isSyncing := false } = INVALID_TRADE :=
  construction_failure_swallowed_as_invalid transformFail _
    currencyA currencyB quote95 route1 queryArgsAB
    rfl rfl rfl rfl rfl rfl (by decide) rfl rfl

/-- Claim C6: when the raw fetch succeeded (`isError = false`, `data` present)
but the block-freshness oracle rejects the result's block number, the filtered
quote is absent and the resolver returns `NO_ROUTE_FOUND` with no trade,
given both currencies present and no fetch in flight
(`useRouterTrade.ts:78, 113-118`). -/
theorem stale_block_resolves_no_route_found
    (transform : List Route → TradeType → Option CurrencyAmount → Option InterfaceTrade)
    (isValidBlock : Nat → Bool) (q : GetQuoteResult)
    (i : ResolverInput) (cin cout : Currency)
    (hin : i.currencyIn = some cin) (hout : i.currencyOut = some cout)
    (hf : i.isFetching = false) (_he : i.isError = false)
    (hstale : isValidBlock q.blockNumber = false)
    (hq : i.quoteResult = filterQuote isValidBlock (some q)) :
    resolveTrade transform i
      = { state := TradeState.NO_ROUTE_FOUND, trade := none } := by
  have hnone : i.quoteResult = none := by
    rw [hq]
    simp [filterQuote, hstale]
  unfold resolveTrade
  rw [hin, hout]
  simp only [hf, if_false, Bool.false_eq_true]
  rw [hnone]
  simp [computeOtherAmount]

/-- Witness for claim C6: the oracle rejects block 1000, so the successful
raw quote is filtered away and the state is `NO_ROUTE_FOUND`. -/
theorem stale_block_resolves_no_route_found_witness :
    resolveTrade transformOk
      { currencyIn := some currencyA, currencyOut := some currencyB,
        quoteResult := filterQuote (fun _ => false) (some quote95),
        isFetching := false, tradeType := TradeType.EXACT_INPUT,
        isError := false, route := some route1, queryArgs := some queryArgsAB,
        gasUseEstimateUSD := none, isSyncing := false }
      = { state := TradeState.NO_ROUTE_FOUND, trade := none } :=
  stale_block_resolves_no_route_found transformOk (fun _ => false) quote95 _
    currencyA currencyB rfl rfl rfl rfl rfl rfl

/-- A currency whose chain id 0 lies outside the supported-chain allow-list
but is falsy in JavaScript, so the guard at `useRouterTrade.ts:56` skips it. -/
def zeroChainCurrency : Currency := { chainId := 0, tag := "Z" }

/-- Hook state whose resolved `currencyIn` is `zeroChainCurrency`. -/
def zeroChainState : HookState :=
  { tradeType := TradeType.EXACT_INPUT, routerUrl := none, providerUrl := "",
    debouncedAmount := some { currency := zeroChainCurrency, raw := 100 },
    debouncedOtherCurrency := some currencyB,
    autoRouterSupported := true, isWindowVisible := true,
    isFetching := false, isError := false, data := none, currentData := none }

/-- Claim C5 counterexample: a resolved `currencyIn` whose chain id (0) is
outside the allow-list does not make the hook throw: the guard tests
JavaScript truthiness (`chainId && ...`, `useRouterTrade.ts:56`), so a falsy
chain id 0 is skipped and the hook resolves normally. -/
theorem zero_chain_outside_allow_list_does_not_throw :
    0 ∉ AUTO_ROUTER_SUPPORTED_CHAINS ∧
    (selectCurrencies zeroChainState.tradeType
        (gateAmount zeroChainState.autoRouterSupported zeroChainState.isWindowVisible
          zeroChainState.debouncedAmount)
        zeroChainState.debouncedOtherCurrency).1 = some zeroChainCurrency ∧
    useRouterTrade AUTO_ROUTER_SUPPORTED_CHAINS (fun _ => true)
        (fun _ _ _ _ => none) transformOk (fun _ => none) zeroChainState
      = Except.ok { state := TradeState.NO_ROUTE_FOUND, trade := none } :=
  ⟨by decide, rfl, rfl⟩

/-- Claim C5 (amended): for every hook input whose resolved `currencyIn` is
present with a truthy (nonzero) chain id outside the supported-chain
allow-list, the hook throws the unsupported-chain error before building any
request (`useRouterTrade.ts:55-58`); an absent or zero chain id is not
checked. -/
theorem unsupported_truthy_chain_throws
    (supportedChains : List Nat) (isValidBlock : Nat → Bool)
    (computeRoutes : Option Currency → Option Currency → TradeType →
      Option GetQuoteResult → Option (List Route))
    (transform : List Route → TradeType → Option CurrencyAmount → Option InterfaceTrade)
    (stableFn : Option Nat → Option CurrencyAmount)
    (s : HookState) (c : Currency)
    (hc : (selectCurrencies s.tradeType
        (gateAmount s.autoRouterSupported s.isWindowVisible s.debouncedAmount)
        s.debouncedOtherCurrency).1 = some c)
    (hnz : c.chainId ≠ 0)
    (hns : c.chainId ∉ supportedChains) :
    useRouterTrade supportedChains isValidBlock computeRoutes transform stableFn s
      = Except.error "Router does not support this chain" := by
  have hcontains : supportedChains.contains c.chainId = false := by
    simpa using hns
  simp only [useRouterTrade]
  rw [hc]
  simp [chainIdTruthy, hnz, hcontains, hns]

/-- Hook state whose resolved `currencyIn` sits on the unsupported chain 999. -/
def chain999State : HookState :=
  { tradeType := TradeType.EXACT_INPUT, routerUrl := none, providerUrl := "",
    debouncedAmount := some { currency := { chainId := 999, tag := "X" }, raw := 100 },
    debouncedOtherCurrency := some currencyB,
    autoRouterSupported := true, isWindowVisible := true,
    isFetching := false, isError := false, data := none, currentData := none }

/-- Witness for the amended claim C5: chain 999 is nonzero and unsupported,
so the hook throws. -/
theorem unsupported_truthy_chain_throws_witness :
    useRouterTrade AUTO_ROUTER_SUPPORTED_CHAINS (fun _ => true)
        (fun _ _ _ _ => none) transformOk (fun _ => none) chain999State
      = Except.error "Router does not support this chain" :=
  unsupported_truthy_chain_throws AUTO_ROUTER_SUPPORTED_CHAINS (fun _ => true)
    (fun _ _ _ _ => none) transformOk (fun _ => none) chain999State
    { chainId := 999, tag := "X" } rfl (by decide) (by decide)

/-- Claim C10: for every resolver input, the returned trade is present
exactly when the returned state is `VALID` or `SYNCING`; every `INVALID`,
`LOADING` and `NO_ROUTE_FOUND` outcome carries no trade
(`useRouterTrade.ts:90-129`). -/
theorem trade_present_iff_valid_or_syncing
    (transform : List Route → TradeType → Option CurrencyAmount → Option InterfaceTrade)
    (i : ResolverInput) :
    (resolveTrade transform i).trade.isSome = true ↔
      ((resolveTrade transform i).state = TradeState.VALID ∨
       (resolveTrade transform i).state = TradeState.SYNCING) := by
  unfold resolveTrade
  cases hin : i.currencyIn with
  | none => simp
  | some cin =>
    cases hout : i.currencyOut with
    | none => simp
    | some cout =>
      cases hf : i.isFetching with
      | true => simp
      | false =>
        simp only [Bool.false_eq_true, if_false]
        split
        · simp
        · cases htr : transform (i.route.getD []) i.tradeType i.gasUseEstimateUSD with
          | none => simp [htr]
          | some t => cases hsy : i.isSyncing <;> simp [htr, hsy]

end RouterTrade
